import Mathlib

/-!
Shallow embedding of the CxxServer core (plain TCP and TLS session, client and
server send/receive paths, error filtering, handler slab memory, and server
restart) together with theorems checking the natural-language specification
against the code.

Buffers are modelled as lists of bytes (Nat), machine counters as Nat, and
the observable effects of each routine (user callbacks fired, asynchronous
operations armed, dispatches scheduled) as a list of events returned next to
the updated state.  Each definition is translated line by line from the
corresponding C++ routine in the repository; comments cite the source file.
-/

/-- Observable effects of the session/client routines: user callbacks and
asynchronous operations issued.  `armWrite bytes` records that an
`async_write_some` was issued with exactly `bytes` as its buffer contents;
`armRead len` records an `async_read_some` with a buffer of `len` bytes;
`dispatchTrySend` records that a `trySend` closure was handed to
`dispatch`; `disconnectCall` records a `disconnect(true)` /
`disconnectAsync(true)` request issued from a completion handler. -/
inductive Event where
  | onConnect
  | onDisconnect
  | onEmpty
  | onSend (size : Nat) (pending : Nat)
  | onReceived (size : Nat)
  | onError (value : Nat) (category : String) (message : String)
  | dispatchTrySend
  | armRead (len : Nat)
  | armWrite (bytes : List Nat)
  | disconnectCall
  deriving DecidableEq, Repr

/-- Error codes the embedded routines distinguish.  Each constructor stands
for one `std::error_code` identity compared against in the sources:
the five benign socket codes, `asio::ssl::error::stream_truncated`, a packed
OpenSSL error in the SSL category (`sslReason packed`), `no_buffer_space`,
`timed_out`, and an arbitrary other code carrying its value, category name
and message. -/
inductive ErrCode where
  | connectionAborted
  | connectionRefused
  | connectionReset
  | eof
  | operationAborted
  | streamTruncated
  | sslReason (packed : Nat)
  | noBufferSpace
  | timedOut
  | generic (value : Nat) (category : String) (message : String)
  deriving DecidableEq, Repr

/-- OpenSSL ERR_GET_REASON: the reason lives in the low 12 bits of a packed
error value. -/
def ERR_GET_REASON (v : Nat) : Nat := v % 4096

/-- OpenSSL reason code SSL_R_DECRYPTION_FAILED_OR_BAD_RECORD_MAC. -/
def SSL_R_DECRYPTION_FAILED_OR_BAD_RECORD_MAC : Nat := 281

/-- OpenSSL reason code SSL_R_PROTOCOL_IS_SHUTDOWN. -/
def SSL_R_PROTOCOL_IS_SHUTDOWN : Nat := 207

/-- OpenSSL reason code SSL_R_WRONG_VERSION_NUMBER. -/
def SSL_R_WRONG_VERSION_NUMBER : Nat := 267

/-- Numeric value of each error code (`err.value()`), using the Linux errno
values asio maps these codes to. -/
def ErrCode.value : ErrCode → Nat
  | .connectionAborted => 103
  | .connectionRefused => 111
  | .connectionReset => 104
  | .eof => 2
  | .operationAborted => 125
  | .streamTruncated => 1
  | .sslReason packed => packed
  | .noBufferSpace => 105
  | .timedOut => 110
  | .generic v _ _ => v

/-- Category name of each error code (`err.category().name()`). -/
def ErrCode.categoryName : ErrCode → String
  | .connectionAborted => "system"
  | .connectionRefused => "system"
  | .connectionReset => "system"
  | .eof => "asio.misc"
  | .operationAborted => "system"
  | .streamTruncated => "asio.ssl.stream"
  | .sslReason _ => "asio.ssl"
  | .noBufferSpace => "system"
  | .timedOut => "system"
  | .generic _ c _ => c

/-- Message of each error code (`err.message()`). -/
def ErrCode.message : ErrCode → String
  | .connectionAborted => "Software caused connection abort"
  | .connectionRefused => "Connection refused"
  | .connectionReset => "Connection reset by peer"
  | .eof => "End of file"
  | .operationAborted => "Operation canceled"
  | .streamTruncated => "stream truncated"
  | .sslReason _ => "ssl error"
  | .noBufferSpace => "No buffer space available"
  | .timedOut => "Connection timed out"
  | .generic _ _ m => m

/-- Session::err (src/source/core/tcp/tcp_session.cxx, lines 422-428): the
five benign disconnect codes are dropped, every other code produces one
onError callback with the code value, category name and message. -/
def Session.errEvents (e : ErrCode) : List Event :=
  if e = .connectionAborted ∨ e = .connectionRefused ∨ e = .connectionReset
     ∨ e = .eof ∨ e = .operationAborted then
    []
  else
    [Event.onError e.value e.categoryName e.message]

/-- Client::err (src/source/core/tcp/tcp_client.cxx, lines 506-513):
identical filter to Session::err. -/
def Client.errEvents (e : ErrCode) : List Event :=
  if e = .connectionAborted ∨ e = .connectionRefused ∨ e = .connectionReset
     ∨ e = .eof ∨ e = .operationAborted then
    []
  else
    [Event.onError e.value e.categoryName e.message]

/-- SSL session error predicate for the OpenSSL category check in
SSL::Session::err: the code lies in the SSL category and its
ERR_GET_REASON is one of the three skipped reasons. -/
def SslAnnoyingReason : ErrCode → Prop
  | .sslReason packed =>
      ERR_GET_REASON packed = SSL_R_DECRYPTION_FAILED_OR_BAD_RECORD_MAC
      ∨ ERR_GET_REASON packed = SSL_R_PROTOCOL_IS_SHUTDOWN
      ∨ ERR_GET_REASON packed = SSL_R_WRONG_VERSION_NUMBER
  | _ => False

instance : DecidablePred SslAnnoyingReason := by
  intro e
  cases e <;> simp [SslAnnoyingReason] <;> infer_instance

/-- SSL::Session::err (src/source/core/tcp/ssl_session.cxx, lines 84-103):
drops the five benign socket codes plus stream_truncated, then drops the
three OpenSSL reasons in the SSL category, and otherwise reports one onError
with value, category name and message. -/
def SslSession.errEvents (e : ErrCode) : List Event :=
  if e = .connectionAborted ∨ e = .connectionRefused ∨ e = .connectionReset
     ∨ e = .eof ∨ e = .operationAborted ∨ e = .streamTruncated then
    []
  else if SslAnnoyingReason e then
    []
  else
    [Event.onError e.value e.categoryName e.message]

/-- SSL::Client::err (src/source/core/service.cxx, second concatenated
document, lines 405-424): same filter as SSL::Session::err, dropping the
five benign socket codes plus stream_truncated, then the three OpenSSL
reasons in the SSL category, and otherwise reporting one onErr with value,
category name and message. -/
def SslClient.errEvents (e : ErrCode) : List Event :=
  if e = .connectionAborted ∨ e = .connectionRefused ∨ e = .connectionReset
     ∨ e = .eof ∨ e = .operationAborted ∨ e = .streamTruncated then
    []
  else if SslAnnoyingReason e then
    []
  else
    [Event.onError e.value e.categoryName e.message]

/-- Pointers handed out by the handler slab: the inline fast storage or a
heap block obtained from malloc. -/
inductive Ptr where
  | fast
  | heap (id : Nat)
  deriving DecidableEq, Repr

/-- State of a HandlerMemory slab (src/unnamed/part_011, memory header): the
`_used` flag guarding the inline `_fast_storage` buffer. -/
structure HandlerMemoryState where
  used : Bool
  deriving DecidableEq, Repr

/-- HandlerMemory::alloc for a slab of capacity S (src/unnamed/part_011,
lines 35-42): when the slab is not used and the request is strictly smaller
than S, mark it used and return the inline buffer; otherwise return a fresh
malloc block (modelled by the caller-supplied fresh id), leaving the slab
state unchanged. -/
def HandlerMemory.alloc (S : Nat) (st : HandlerMemoryState) (size : Nat)
    (fresh : Nat) : HandlerMemoryState × Ptr :=
  if st.used = false ∧ size < S then
    ({ used := true }, Ptr.fast)
  else
    (st, Ptr.heap fresh)

/-- HandlerMemory::free (src/unnamed/part_011, lines 48-53): freeing the
inline buffer clears the used flag; freeing any other pointer goes to
std::free (the returned Bool records that the block was released to the
general heap). -/
def HandlerMemory.free (st : HandlerMemoryState) (p : Ptr) :
    HandlerMemoryState × Bool :=
  match p with
  | Ptr.fast => ({ used := false }, false)
  | Ptr.heap _ => (st, true)

/-- Per-connection state of a Tcp::Session
(src/include/core/tcp/tcp_session.hxx): connection flag, byte counters,
receive buffer capacity and limit, the double send buffers with flush
offset, the sending/receiving flags, and the send limit.  Buffer contents
are byte lists; the receive buffer is tracked by its size only. -/
structure SessionState where
  connected : Bool
  bytesPending : Nat
  bytesSending : Nat
  bytesSent : Nat
  bytesReceived : Nat
  receiving : Bool
  receiveBuff : Nat
  receiveLimit : Nat
  sending : Bool
  sendBuffMain : List Nat
  sendBuffFlush : List Nat
  sendFlushOffset : Nat
  sendLimit : Nat
  deriving DecidableEq, Repr

/-- Session::sendAsync (src/source/core/tcp/tcp_session.cxx, lines 184-225)
for a non-null buffer: gate on isConnected, return true on zero size, note
whether either send buffer was empty (multiple_sends), refuse the append
when a non-zero send limit would be exceeded, append to send-main, refresh
bytes_pending, and dispatch a trySend closure only when multiple_sends was
true.  Returns the new state, the Bool result and the emitted events. -/
def Session.sendAsync (s : SessionState) (buf : List Nat) :
    SessionState × Bool × List Event :=
  if s.connected = false then
    (s, false, [])
  else if buf.length = 0 then
    (s, true, [])
  else
    let multipleSends := s.sendBuffMain = [] ∨ s.sendBuffFlush = []
    if s.sendBuffMain.length + buf.length > s.sendLimit ∧ s.sendLimit > 0 then
      (s, false, Session.errEvents ErrCode.noBufferSpace)
    else
      let s1 := { s with
        sendBuffMain := s.sendBuffMain ++ buf,
        bytesPending := (s.sendBuffMain ++ buf).length }
      if multipleSends then
        (s1, true, [Event.dispatchTrySend])
      else
        (s1, true, [])

/-- Session::tryReceive (src/source/core/tcp/tcp_session.cxx, lines
300-342), up to issuing the asynchronous read: bail out when a receive is
already in flight or the session is not connected, otherwise set the
receiving flag and arm async_read_some over the whole receive buffer. -/
def Session.tryReceive (s : SessionState) : SessionState × List Event :=
  if s.receiving = true ∨ s.connected = false then
    (s, [])
  else
    ({ s with receiving := true }, [Event.armRead s.receiveBuff])

/-- Completion handler of Session::tryReceive (src/source/core/tcp/
tcp_session.cxx, lines 306-336): clear the receiving flag; stop when no
longer connected; on a non-empty read bump the byte counters, fire
onReceived, and when the read filled the buffer exactly either disconnect
with a buffer-exhausted error (non-zero limit exceeded by the doubled size)
or double the buffer capacity; finally re-arm another read when the
operation reported no error, and report the error plus disconnect
otherwise.  Aggregate server counters are outside the model. -/
def Session.tryReceiveComplete (s : SessionState) (e : Option ErrCode)
    (size : Nat) : SessionState × List Event :=
  let s0 := { s with receiving := false }
  if s0.connected = false then
    (s0, [])
  else if size > 0 then
    let s1 := { s0 with bytesReceived := s0.bytesReceived + size }
    if s1.receiveBuff = size then
      if size * 2 > s1.receiveLimit ∧ s1.receiveLimit > 0 then
        (s1, Event.onReceived size ::
          (Session.errEvents ErrCode.noBufferSpace ++ [Event.disconnectCall]))
      else
        let s2 := { s1 with receiveBuff := size * 2 }
        match e with
        | none =>
            let (s3, evs) := Session.tryReceive s2
            (s3, Event.onReceived size :: evs)
        | some err =>
            (s2, Event.onReceived size ::
              (Session.errEvents err ++ [Event.disconnectCall]))
    else
      match e with
      | none =>
          let (s3, evs) := Session.tryReceive s1
          (s3, Event.onReceived size :: evs)
      | some err =>
          (s1, Event.onReceived size ::
            (Session.errEvents err ++ [Event.disconnectCall]))
  else
    match e with
    | none =>
        let (s3, evs) := Session.tryReceive s0
        (s3, evs)
    | some err =>
        (s0, Session.errEvents err ++ [Event.disconnectCall])

/-- Session::trySend (src/source/core/tcp/tcp_session.cxx, lines 344-406),
up to issuing the asynchronous write: bail out when a send is in flight or
the session is not connected; when flush is empty swap it with main under
the send lock (resetting the flush offset and bytes_pending and adding the
new flush size to bytes_sending); when flush is still empty fire onEmpty;
otherwise set the sending flag and arm async_write_some over the unwritten
tail of flush, i.e. the suffix starting at the flush offset. -/
def Session.trySend (s : SessionState) : SessionState × List Event :=
  if s.sending = true ∨ s.connected = false then
    (s, [])
  else
    let s1 :=
      if s.sendBuffFlush = [] then
        { s with
          sendBuffFlush := s.sendBuffMain,
          sendBuffMain := s.sendBuffFlush,
          sendFlushOffset := 0,
          bytesPending := 0,
          bytesSending := s.bytesSending + s.sendBuffMain.length }
      else s
    if s1.sendBuffFlush = [] then
      (s1, [Event.onEmpty])
    else
      ({ s1 with sending := true },
       [Event.armWrite (s1.sendBuffFlush.drop s1.sendFlushOffset)])

/-- Completion handler of Session::trySend (src/source/core/tcp/
tcp_session.cxx, lines 365-394): clear the sending flag; stop when no
longer connected; on a non-empty write adjust the counters, advance the
flush offset, clear flush when fully drained, and fire onSend; then either
recurse into trySend (no error) or report the error and disconnect. -/
def Session.trySendComplete (s : SessionState) (e : Option ErrCode)
    (size : Nat) : SessionState × List Event :=
  let s0 := { s with sending := false }
  if s0.connected = false then
    (s0, [])
  else
    let (s1, evs1) :=
      if size > 0 then
        let s1a := { s0 with
          bytesSending := s0.bytesSending - size,
          bytesSent := s0.bytesSent + size,
          sendFlushOffset := s0.sendFlushOffset + size }
        let s1b :=
          if s1a.sendFlushOffset = s1a.sendBuffFlush.length then
            { s1a with sendBuffFlush := [], sendFlushOffset := 0 }
          else s1a
        (s1b, [Event.onSend size s1b.bytesPending])
      else (s0, [])
    match e with
    | none =>
        let (s2, evs2) := Session.trySend s1
        (s2, evs1 ++ evs2)
    | some err =>
        (s1, evs1 ++ Session.errEvents err ++ [Event.disconnectCall])

/-- Session::clearBuffs (src/source/core/tcp/tcp_session.cxx, lines
408-415): clear both send buffers and zero the flush offset, bytes_pending
and bytes_sending under the send lock. -/
def Session.clearBuffs (s : SessionState) : SessionState :=
  { s with
    sendBuffMain := [],
    sendBuffFlush := [],
    sendFlushOffset := 0,
    bytesPending := 0,
    bytesSending := 0 }

/-- Per-connection state of a Tcp::Client (src/unnamed/part_004, the TCP
client header): the Session fields plus the connecting flag; the client
names its limits _receive_buff_limit and _send_buff_limit. -/
structure ClientState where
  connecting : Bool
  connected : Bool
  bytesPending : Nat
  bytesSending : Nat
  bytesSent : Nat
  bytesReceived : Nat
  receiving : Bool
  receiveBuff : Nat
  receiveBuffLimit : Nat
  sending : Bool
  sendBuffMain : List Nat
  sendBuffFlush : List Nat
  sendFlushOffset : Nat
  sendBuffLimit : Nat
  deriving DecidableEq, Repr

/-- Modelled from the spec: Tcp::Client::isReady.  The primary client
implementation (src/source/core/tcp/tcp_client.cxx) gates its send and
receive paths on isReady(), whose definition for the plain TCP client is
absent from src (the header under src/unnamed/part_004 predates it); spec
section 4.4 states a client is ready when connected (TLS additionally
requires handshaked, as the SSL override in src/unnamed/part_008 shows), so
the plain client is ready exactly when connected. -/
def Client.isReady (c : ClientState) : Bool := c.connected

/-- Client::sendAsync (src/source/core/tcp/tcp_client.cxx, lines 404-438)
for a non-null buffer: return false when not ready or the size is zero;
refuse the append when a non-zero send limit would be exceeded; note
whether either send buffer was empty (multiple_send_required), append to
send-main, refresh bytes_pending, and dispatch a trySend closure only when
multiple_send_required was true. -/
def Client.sendAsync (c : ClientState) (buf : List Nat) :
    ClientState × Bool × List Event :=
  if Client.isReady c = false ∨ buf.length = 0 then
    (c, false, [])
  else if c.sendBuffMain.length + buf.length > c.sendBuffLimit
          ∧ c.sendBuffLimit > 0 then
    (c, false, Client.errEvents ErrCode.noBufferSpace)
  else
    let multipleSendRequired := c.sendBuffMain = [] ∨ c.sendBuffFlush = []
    let c1 := { c with
      sendBuffMain := c.sendBuffMain ++ buf,
      bytesPending := (c.sendBuffMain ++ buf).length }
    if multipleSendRequired then
      (c1, true, [Event.dispatchTrySend])
    else
      (c1, true, [])

/-- Client::tryReceive (src/source/core/tcp/tcp_client.cxx, lines 363-402),
up to issuing the asynchronous read: bail out when a receive is in flight
or the client is not ready, otherwise set the receiving flag and arm
async_read_some over the whole receive buffer. -/
def Client.tryReceive (c : ClientState) : ClientState × List Event :=
  if c.receiving = true ∨ Client.isReady c = false then
    (c, [])
  else
    ({ c with receiving := true }, [Event.armRead c.receiveBuff])

/-- Completion handler of Client::tryReceive (src/source/core/tcp/
tcp_client.cxx, lines 370-399): the same shape as the session handler, with
isReady in place of isConnected, _receive_buff_limit as the limit, and
disconnectAsync(true) as the disconnect call. -/
def Client.tryReceiveComplete (c : ClientState) (e : Option ErrCode)
    (size : Nat) : ClientState × List Event :=
  let c0 := { c with receiving := false }
  if Client.isReady c0 = false then
    (c0, [])
  else if size > 0 then
    let c1 := { c0 with bytesReceived := c0.bytesReceived + size }
    if c1.receiveBuff = size then
      if size * 2 > c1.receiveBuffLimit ∧ c1.receiveBuffLimit > 0 then
        (c1, Event.onReceived size ::
          (Client.errEvents ErrCode.noBufferSpace ++ [Event.disconnectCall]))
      else
        let c2 := { c1 with receiveBuff := size * 2 }
        match e with
        | none =>
            let (c3, evs) := Client.tryReceive c2
            (c3, Event.onReceived size :: evs)
        | some err =>
            (c2, Event.onReceived size ::
              (Client.errEvents err ++ [Event.disconnectCall]))
    else
      match e with
      | none =>
          let (c3, evs) := Client.tryReceive c1
          (c3, Event.onReceived size :: evs)
      | some err =>
          (c1, Event.onReceived size ::
            (Client.errEvents err ++ [Event.disconnectCall]))
  else
    match e with
    | none =>
        let (c3, evs) := Client.tryReceive c0
        (c3, evs)
    | some err =>
        (c0, Client.errEvents err ++ [Event.disconnectCall])

/-- Client::trySend (src/source/core/tcp/tcp_client.cxx, lines 444-495),
up to issuing the asynchronous write: same swap and onEmpty logic as the
session, but the write it arms covers the whole flush buffer from its
start, asyncWriteSome(flush.data(), flush.size()), not the suffix at the
flush offset. -/
def Client.trySend (c : ClientState) : ClientState × List Event :=
  if c.sending = true ∨ Client.isReady c = false then
    (c, [])
  else
    let c1 :=
      if c.sendBuffFlush = [] then
        { c with
          sendBuffFlush := c.sendBuffMain,
          sendBuffMain := c.sendBuffFlush,
          sendFlushOffset := 0,
          bytesPending := 0,
          bytesSending := c.bytesSending + c.sendBuffMain.length }
      else c
    if c1.sendBuffFlush = [] then
      (c1, [Event.onEmpty])
    else
      ({ c1 with sending := true },
       [Event.armWrite c1.sendBuffFlush])

/-- Completion handler of the async_connect issued by Client::connectAsync
(src/source/core/tcp/tcp_client.cxx, lines 135-165): clear the connecting
flag and stop when already connected; on success apply socket options,
resize the receive buffer to the kernel receive-buffer size (the recvSize
argument), zero the counters, set connected, fire onConnect, run
tryReceive, fire onConnect a second time, and fire onEmpty when send-main
is empty; on failure run the error filter and fire onDisconnect. -/
def Client.connectComplete (c : ClientState) (e : Option ErrCode)
    (recvSize : Nat) : ClientState × List Event :=
  let c0 := { c with connecting := false }
  if c0.connected = true then
    (c0, [])
  else
    match e with
    | none =>
        let c1 := { c0 with
          receiveBuff := recvSize,
          bytesPending := 0,
          bytesSending := 0,
          bytesReceived := 0,
          bytesSent := 0,
          connected := true }
        let (c2, recvEvs) := Client.tryReceive c1
        let emptyEvs :=
          if c2.sendBuffMain = [] then [Event.onEmpty] else []
        (c2, Event.onConnect :: recvEvs ++ Event.onConnect :: emptyEvs)
    | some err =>
        (c0, Client.errEvents err ++ [Event.onDisconnect])

/-- Exit condition of the wait loop in Server::restart
(src/source/core/tcp/tcp_server.cxx, line 173): the loop body is
while not isStarted do yield, so the loop exits exactly when isStarted()
observes true. -/
def Server.waitLoopExits (startedObserved : Bool) : Bool := startedObserved

/-- Return value of Server::start (src/source/core/tcp/tcp_server.cxx,
lines 99-137) as a function of the started flag at the call: an already
started server fails the assert and returns false; otherwise the start
handler is posted and the call returns true. -/
def Server.startReturn (startedAtCall : Bool) : Bool := !startedAtCall

/-- Return value of Server::stop (src/source/core/tcp/tcp_server.cxx,
lines 140-167): false when not started, otherwise the stop handler is
posted (it later clears the started flag) and the call returns true. -/
def Server.stopReturn (startedAtCall : Bool) : Bool := startedAtCall

/-- One run of Server::restart (src/source/core/tcp/tcp_server.cxx, lines
169-177) on a server whose started flag is `started`, under the
interleaving in which the stop handler posted by stop() executes at stage
`stage` of the restart call: stage 0 = before the first wait-loop check
(so the loop observes started = false), stage 1 = after the wait loop
exits but before start() reads the flag, stage 2 or later = after start()
reads the flag.  The result is none when the wait loop never exits and
some r when restart returns r. -/
def Server.restartRun (started : Bool) (stage : Nat) : Option Bool :=
  if Server.stopReturn started = false then
    some false
  else
    let startedDuringWait := decide (1 ≤ stage)
    if Server.waitLoopExits startedDuringWait then
      some (Server.startReturn (decide (2 ≤ stage)))
    else
      none

/-- Benign set of the plain TCP error filter, as the claim states it: the
five post-disconnect socket codes suppressed by Session::err and
Client::err. -/
def TcpBenign (e : ErrCode) : Prop :=
  e = .connectionAborted ∨ e = .connectionRefused ∨ e = .connectionReset
  ∨ e = .eof ∨ e = .operationAborted

instance : DecidablePred TcpBenign := by
  intro e
  unfold TcpBenign
  infer_instance

/-- Benign set of the TLS error filter, as the claim states it: the TCP
set plus stream_truncated and the three OpenSSL reasons. -/
def SslBenign (e : ErrCode) : Prop :=
  TcpBenign e ∨ e = .streamTruncated ∨ SslAnnoyingReason e

instance : DecidablePred SslBenign := by
  intro e
  unfold SslBenign
  infer_instance

/-- Invariant of the spec: a session's bytes_pending equals the size of its
send-main buffer. -/
def Session.sendInv (s : SessionState) : Prop :=
  s.bytesPending = s.sendBuffMain.length

/-- C1: the claim says a successful connect_async invokes on_connect exactly
once before arming the receive loop and firing on_empty.  Evaluating the
success path of the async connect completion handler on a fresh connecting
client shows the code fires onConnect twice, once before and once after
arming the receive loop, so each lifecycle pass invokes the callback twice,
contradicting the claim. -/
theorem claim_C1_connectAsync_onConnect_twice :
    (Client.connectComplete
      { connecting := true, connected := false, bytesPending := 0,
        bytesSending := 0, bytesSent := 0, bytesReceived := 0,
        receiving := false, receiveBuff := 0, receiveBuffLimit := 0,
        sending := false, sendBuffMain := [], sendBuffFlush := [],
        sendFlushOffset := 0, sendBuffLimit := 0 } none 4096).2
      = [Event.onConnect, Event.armRead 4096, Event.onConnect, Event.onEmpty]
    ∧ ((Client.connectComplete
      { connecting := true, connected := false, bytesPending := 0,
        bytesSending := 0, bytesSent := 0, bytesReceived := 0,
        receiving := false, receiveBuff := 0, receiveBuffLimit := 0,
        sending := false, sendBuffMain := [], sendBuffFlush := [],
        sendFlushOffset := 0, sendBuffLimit := 0 } none 4096).2.filter
          (fun ev => ev = Event.onConnect)).length = 2 := by
  decide

/-- C2: the claim says every write_some issued by the double-buffered send
covers exactly the unwritten tail of the flush buffer (the suffix at the
flush offset) in both Session and Client.  After a partial write of one
byte out of the two-byte flush buffer (flush offset 1), the client arms a
write over the whole flush buffer from its start, re-submitting the already
written first byte, while the unwritten tail is only the second byte; the
session at the same state arms exactly the tail. -/
theorem claim_C2_client_write_not_tail :
    (Client.trySend
      { connecting := false, connected := true, bytesPending := 0,
        bytesSending := 2, bytesSent := 1, bytesReceived := 0,
        receiving := false, receiveBuff := 0, receiveBuffLimit := 0,
        sending := false, sendBuffMain := [], sendBuffFlush := [1, 2],
        sendFlushOffset := 1, sendBuffLimit := 0 }).2
      = [Event.armWrite [1, 2]]
    ∧ List.drop 1 [1, 2] = [2]
    ∧ (Session.trySend
      { connected := true, bytesPending := 0, bytesSending := 2,
        bytesSent := 1, bytesReceived := 0, receiving := false,
        receiveBuff := 0, receiveLimit := 0, sending := false,
        sendBuffMain := [], sendBuffFlush := [1, 2],
        sendFlushOffset := 1, sendLimit := 0 }).2
      = [Event.armWrite [2]] := by
  decide

/-- C7: the claim says restart on a started server stops, waits until the
started flag is false, then starts, returning true when both succeed.  The
wait loop in the source is while not isStarted do yield, which waits for
the flag to become true: in the interleaving where the posted stop handler
has already cleared the flag (stage 0) the loop never exits, and in the
interleaving where the handler runs only after start() reads the flag
(stage 2) start() sees a started server and returns false, so restart
returns false. -/
theorem claim_C7_restart_wait_inverted :
    Server.restartRun true 0 = none ∧ Server.restartRun true 2 = some false := by
  decide

/-- C3 counterexample: the claim says a successful send_async schedules
try_send via dispatch only when both send buffers were empty before the
append.  On a connected session whose send-main already holds a byte while
send-flush is empty, send_async nevertheless dispatches a trySend closure,
so the claim as stated is false. -/
theorem claim_C3_counterexample_dispatch_with_nonempty_main :
    (Session.sendAsync
      { connected := true, bytesPending := 1, bytesSending := 0,
        bytesSent := 0, bytesReceived := 0, receiving := false,
        receiveBuff := 0, receiveLimit := 0, sending := false,
        sendBuffMain := [7], sendBuffFlush := [], sendFlushOffset := 0,
        sendLimit := 0 } [8]).2.2 = [Event.dispatchTrySend]
    ∧ ¬(([7] : List Nat) = [] ∧ ([] : List Nat) = []) := by
  decide

/-- C3 amended: a successful send_async on a connected session (ready
client) outside the limit-refusal case returns true and schedules try_send
via dispatch exactly when the send-main buffer or the send-flush buffer was
empty before the append; when both were non-empty it schedules nothing. -/
theorem claim_C3_amended_dispatch_iff_either_empty
    (s : SessionState) (c : ClientState) (buf : List Nat)
    (hs : s.connected = true) (hc : Client.isReady c = true) (hb : buf ≠ [])
    (hls : ¬(s.sendBuffMain.length + buf.length > s.sendLimit
              ∧ s.sendLimit > 0))
    (hlc : ¬(c.sendBuffMain.length + buf.length > c.sendBuffLimit
              ∧ c.sendBuffLimit > 0)) :
    (Session.sendAsync s buf).2.1 = true
    ∧ (Session.sendAsync s buf).2.2
        = (if s.sendBuffMain = [] ∨ s.sendBuffFlush = []
           then [Event.dispatchTrySend] else [])
    ∧ (Client.sendAsync c buf).2.1 = true
    ∧ (Client.sendAsync c buf).2.2
        = (if c.sendBuffMain = [] ∨ c.sendBuffFlush = []
           then [Event.dispatchTrySend] else []) := by
  have hb0 : ¬ buf.length = 0 := by simpa using hb
  unfold Session.sendAsync Client.sendAsync
  simp only [hs, hc, hb0, if_neg hls, if_neg hlc]
  split_ifs <;> simp_all

/-- C3 witness: the amended theorem applied to a connected session and a
ready client whose buffers are both non-empty, where the append schedules
nothing. -/
theorem claim_C3_amended_witness :
    (Session.sendAsync
      { connected := true, bytesPending := 1, bytesSending := 1,
        bytesSent := 0, bytesReceived := 0, receiving := false,
        receiveBuff := 0, receiveLimit := 0, sending := true,
        sendBuffMain := [1], sendBuffFlush := [2], sendFlushOffset := 0,
        sendLimit := 0 } [9]).2.2 = []
    ∧ (Client.sendAsync
      { connecting := false, connected := true, bytesPending := 1,
        bytesSending := 1, bytesSent := 0, bytesReceived := 0,
        receiving := false, receiveBuff := 0, receiveBuffLimit := 0,
        sending := true, sendBuffMain := [1], sendBuffFlush := [2],
        sendFlushOffset := 0, sendBuffLimit := 0 } [9]).2.2 = [] := by
  have h := claim_C3_amended_dispatch_iff_either_empty
    { connected := true, bytesPending := 1, bytesSending := 1,
      bytesSent := 0, bytesReceived := 0, receiving := false,
      receiveBuff := 0, receiveLimit := 0, sending := true,
      sendBuffMain := [1], sendBuffFlush := [2], sendFlushOffset := 0,
      sendLimit := 0 }
    { connecting := false, connected := true, bytesPending := 1,
      bytesSending := 1, bytesSent := 0, bytesReceived := 0,
      receiving := false, receiveBuff := 0, receiveBuffLimit := 0,
      sending := true, sendBuffMain := [1], sendBuffFlush := [2],
      sendFlushOffset := 0, sendBuffLimit := 0 }
    [9] rfl rfl (by decide) (by decide) (by decide)
  refine ⟨?_, ?_⟩
  · simpa using h.2.1
  · simpa using h.2.2.2

/-- C4: on a connected session and a ready client with a non-zero send
limit, a send_async whose size added to the current send-main size exceeds
the limit reports the buffer-exhausted error through the error filter,
returns false, and leaves the whole state (send-main, bytes_pending,
connected flag) unchanged. -/
theorem claim_C4_send_limit_refusal
    (s : SessionState) (c : ClientState) (buf : List Nat)
    (hs : s.connected = true) (hc : Client.isReady c = true) (hb : buf ≠ [])
    (hlimS : s.sendLimit > 0)
    (hexcS : s.sendBuffMain.length + buf.length > s.sendLimit)
    (hlimC : c.sendBuffLimit > 0)
    (hexcC : c.sendBuffMain.length + buf.length > c.sendBuffLimit) :
    Session.sendAsync s buf
      = (s, false, [Event.onError 105 "system" "No buffer space available"])
    ∧ Client.sendAsync c buf
      = (c, false, [Event.onError 105 "system" "No buffer space available"]) := by
  have hb0 : ¬ buf.length = 0 := by simpa using hb
  unfold Session.sendAsync Client.sendAsync
  simp [hs, hc, hb0, hlimS, hexcS, hlimC, hexcC,
    Session.errEvents, Client.errEvents,
    ErrCode.value, ErrCode.categoryName, ErrCode.message]

/-- C4 witness: a session and client with send limit 4 and three bytes
already pending refuse a two-byte append, reporting buffer exhaustion and
changing nothing. -/
theorem claim_C4_witness :
    Session.sendAsync
      { connected := true, bytesPending := 3, bytesSending := 0,
        bytesSent := 0, bytesReceived := 0, receiving := false,
        receiveBuff := 0, receiveLimit := 0, sending := false,
        sendBuffMain := [1, 2, 3], sendBuffFlush := [],
        sendFlushOffset := 0, sendLimit := 4 } [9, 9]
      = ({ connected := true, bytesPending := 3, bytesSending := 0,
           bytesSent := 0, bytesReceived := 0, receiving := false,
           receiveBuff := 0, receiveLimit := 0, sending := false,
           sendBuffMain := [1, 2, 3], sendBuffFlush := [],
           sendFlushOffset := 0, sendLimit := 4 }, false,
         [Event.onError 105 "system" "No buffer space available"])
    ∧ Client.sendAsync
      { connecting := false, connected := true, bytesPending := 3,
        bytesSending := 0, bytesSent := 0, bytesReceived := 0,
        receiving := false, receiveBuff := 0, receiveBuffLimit := 0,
        sending := false, sendBuffMain := [1, 2, 3], sendBuffFlush := [],
        sendFlushOffset := 0, sendBuffLimit := 4 } [9, 9]
      = ({ connecting := false, connected := true, bytesPending := 3,
           bytesSending := 0, bytesSent := 0, bytesReceived := 0,
           receiving := false, receiveBuff := 0, receiveBuffLimit := 0,
           sending := false, sendBuffMain := [1, 2, 3], sendBuffFlush := [],
           sendFlushOffset := 0, sendBuffLimit := 4 }, false,
         [Event.onError 105 "system" "No buffer space available"]) :=
  claim_C4_send_limit_refusal _ _ [9, 9] rfl rfl (by decide) (by decide)
    (by decide) (by decide) (by decide)

/-- C5: in the receive completion of a connected session and a ready
client, a read that filled the receive buffer exactly doubles its capacity
unless the doubled size exceeds a non-zero receive limit, in which case a
buffer-exhausted error is reported and a disconnect issued while the
capacity stays put; and when the operation reported no error (and no
overflow occurred) the events end by arming another read over the
resulting buffer. -/
theorem claim_C5_receive_growth_and_limit
    (s : SessionState) (c : ClientState) (e : Option ErrCode) (size : Nat)
    (hs : s.connected = true) (hc : Client.isReady c = true)
    (hpos : 0 < size) :
    (s.receiveBuff = size → (s.receiveLimit = 0 ∨ size * 2 ≤ s.receiveLimit) →
      (Session.tryReceiveComplete s e size).1.receiveBuff = size * 2)
    ∧ (s.receiveBuff = size → s.receiveLimit > 0 → size * 2 > s.receiveLimit →
      (Session.tryReceiveComplete s e size).2
        = [Event.onReceived size,
           Event.onError 105 "system" "No buffer space available",
           Event.disconnectCall]
      ∧ (Session.tryReceiveComplete s e size).1.receiveBuff = size)
    ∧ (e = none →
       ¬(s.receiveBuff = size ∧ s.receiveLimit > 0 ∧ size * 2 > s.receiveLimit) →
      (Session.tryReceiveComplete s e size).2
        = [Event.onReceived size,
           Event.armRead ((Session.tryReceiveComplete s e size).1.receiveBuff)])
    ∧ (c.receiveBuff = size →
       (c.receiveBuffLimit = 0 ∨ size * 2 ≤ c.receiveBuffLimit) →
      (Client.tryReceiveComplete c e size).1.receiveBuff = size * 2)
    ∧ (c.receiveBuff = size → c.receiveBuffLimit > 0 →
       size * 2 > c.receiveBuffLimit →
      (Client.tryReceiveComplete c e size).2
        = [Event.onReceived size,
           Event.onError 105 "system" "No buffer space available",
           Event.disconnectCall]
      ∧ (Client.tryReceiveComplete c e size).1.receiveBuff = size)
    ∧ (e = none →
       ¬(c.receiveBuff = size ∧ c.receiveBuffLimit > 0
         ∧ size * 2 > c.receiveBuffLimit) →
      (Client.tryReceiveComplete c e size).2
        = [Event.onReceived size,
           Event.armRead ((Client.tryReceiveComplete c e size).1.receiveBuff)]) := by
  refine ⟨?_, ?_, ?_, ?_, ?_, ?_⟩ <;>
    intros <;> cases e <;>
    simp_all only [Session.tryReceiveComplete, Session.tryReceive,
      Client.tryReceiveComplete, Client.tryReceive, Client.isReady] <;>
    split_ifs <;>
    simp_all [Session.errEvents, Client.errEvents,
      ErrCode.value, ErrCode.categoryName, ErrCode.message] <;> omega

/-- C5 witness: a session whose eight-byte buffer was filled exactly under
no limit doubles to sixteen bytes, and a ready client whose eight-byte
buffer was filled exactly under a ten-byte limit reports buffer exhaustion
and disconnects. -/
theorem claim_C5_witness :
    (Session.tryReceiveComplete
      { connected := true, bytesPending := 0, bytesSending := 0,
        bytesSent := 0, bytesReceived := 0, receiving := true,
        receiveBuff := 8, receiveLimit := 0, sending := false,
        sendBuffMain := [], sendBuffFlush := [], sendFlushOffset := 0,
        sendLimit := 0 } none 8).1.receiveBuff = 16
    ∧ (Client.tryReceiveComplete
      { connecting := false, connected := true, bytesPending := 0,
        bytesSending := 0, bytesSent := 0, bytesReceived := 0,
        receiving := true, receiveBuff := 8, receiveBuffLimit := 10,
        sending := false, sendBuffMain := [], sendBuffFlush := [],
        sendFlushOffset := 0, sendBuffLimit := 0 } none 8).2
      = [Event.onReceived 8,
         Event.onError 105 "system" "No buffer space available",
         Event.disconnectCall] := by
  refine ⟨?_, ?_⟩
  · exact (claim_C5_receive_growth_and_limit
      { connected := true, bytesPending := 0, bytesSending := 0,
        bytesSent := 0, bytesReceived := 0, receiving := true,
        receiveBuff := 8, receiveLimit := 0, sending := false,
        sendBuffMain := [], sendBuffFlush := [], sendFlushOffset := 0,
        sendLimit := 0 }
      { connecting := false, connected := true, bytesPending := 0,
        bytesSending := 0, bytesSent := 0, bytesReceived := 0,
        receiving := true, receiveBuff := 8, receiveBuffLimit := 10,
        sending := false, sendBuffMain := [], sendBuffFlush := [],
        sendFlushOffset := 0, sendBuffLimit := 0 }
      none 8 rfl rfl (by decide)).1 rfl (Or.inl rfl)
  · exact ((claim_C5_receive_growth_and_limit
      { connected := true, bytesPending := 0, bytesSending := 0,
        bytesSent := 0, bytesReceived := 0, receiving := true,
        receiveBuff := 8, receiveLimit := 0, sending := false,
        sendBuffMain := [], sendBuffFlush := [], sendFlushOffset := 0,
        sendLimit := 0 }
      { connecting := false, connected := true, bytesPending := 0,
        bytesSending := 0, bytesSent := 0, bytesReceived := 0,
        receiving := true, receiveBuff := 8, receiveBuffLimit := 10,
        sending := false, sendBuffMain := [], sendBuffFlush := [],
        sendFlushOffset := 0, sendBuffLimit := 0 }
      none 8 rfl rfl (by decide)).2.2.2.2.1 rfl (by decide) (by decide)).1

/-- C6: the error filters of the plain TCP session and client suppress
exactly the five benign codes and otherwise fire on_err once with the code
value, category name and message; the TLS variants additionally suppress
stream_truncated and the SSL-category codes whose OpenSSL reason is one of
the three listed, and otherwise fire on_err once likewise. -/
theorem claim_C6_benign_error_filter (e : ErrCode) :
    (TcpBenign e → Session.errEvents e = [] ∧ Client.errEvents e = [])
    ∧ (¬TcpBenign e →
        Session.errEvents e
          = [Event.onError e.value e.categoryName e.message]
        ∧ Client.errEvents e
          = [Event.onError e.value e.categoryName e.message])
    ∧ (SslBenign e → SslSession.errEvents e = [] ∧ SslClient.errEvents e = [])
    ∧ (¬SslBenign e →
        SslSession.errEvents e
          = [Event.onError e.value e.categoryName e.message]
        ∧ SslClient.errEvents e
          = [Event.onError e.value e.categoryName e.message]) := by
  refine ⟨?_, ?_, ?_, ?_⟩ <;> intro h <;>
    simp_all only [TcpBenign, SslBenign, Session.errEvents, Client.errEvents,
      SslSession.errEvents, SslClient.errEvents] <;>
    split_ifs <;> simp_all

/-- C6 witness: connection_reset is suppressed by the TCP filter, a WRONG
VERSION NUMBER SSL code is suppressed by the TLS filter but reported by
the TCP filter, and no_buffer_space is reported by the TLS filter. -/
theorem claim_C6_witness :
    Session.errEvents ErrCode.connectionReset = []
    ∧ SslSession.errEvents (ErrCode.sslReason 267) = []
    ∧ Session.errEvents (ErrCode.sslReason 267)
        = [Event.onError 267 "asio.ssl" "ssl error"]
    ∧ SslSession.errEvents ErrCode.noBufferSpace
        = [Event.onError 105 "system" "No buffer space available"] := by
  refine ⟨?_, ?_, ?_, ?_⟩
  · exact ((claim_C6_benign_error_filter ErrCode.connectionReset).1
      (by decide)).1
  · exact ((claim_C6_benign_error_filter (ErrCode.sslReason 267)).2.2.1
      (by decide)).1
  · exact ((claim_C6_benign_error_filter (ErrCode.sslReason 267)).2.1
      (by decide)).1
  · exact ((claim_C6_benign_error_filter ErrCode.noBufferSpace).2.2.2
      (by decide)).1

/-- C8: the invariant that bytes_pending equals the size of the send-main
buffer is preserved by send_async (append and refusal), by try_send
(including its main-to-flush swap), by the try_send completion handler,
and by clear_buffers. -/
theorem claim_C8_pending_equals_main
    (s : SessionState) (buf : List Nat) (e : Option ErrCode) (size : Nat)
    (h : Session.sendInv s) :
    Session.sendInv (Session.sendAsync s buf).1
    ∧ Session.sendInv (Session.trySend s).1
    ∧ Session.sendInv (Session.trySendComplete s e size).1
    ∧ Session.sendInv (Session.clearBuffs s) := by
  refine ⟨?_, ?_, ?_, ?_⟩ <;> cases e <;>
    simp_all only [Session.sendInv, Session.sendAsync, Session.trySend,
      Session.trySendComplete, Session.clearBuffs] <;>
    (try split_ifs) <;> simp_all

/-- C8 witness: the invariant holds on a connected session with two pending
bytes and is preserved by all four send-path operations on it. -/
theorem claim_C8_witness :
    Session.sendInv (Session.sendAsync
      { connected := true, bytesPending := 2, bytesSending := 0,
        bytesSent := 0, bytesReceived := 0, receiving := false,
        receiveBuff := 0, receiveLimit := 0, sending := false,
        sendBuffMain := [1, 2], sendBuffFlush := [], sendFlushOffset := 0,
        sendLimit := 0 } [9]).1
    ∧ Session.sendInv (Session.trySend
      { connected := true, bytesPending := 2, bytesSending := 0,
        bytesSent := 0, bytesReceived := 0, receiving := false,
        receiveBuff := 0, receiveLimit := 0, sending := false,
        sendBuffMain := [1, 2], sendBuffFlush := [], sendFlushOffset := 0,
        sendLimit := 0 }).1
    ∧ Session.sendInv (Session.trySendComplete
      { connected := true, bytesPending := 2, bytesSending := 0,
        bytesSent := 0, bytesReceived := 0, receiving := false,
        receiveBuff := 0, receiveLimit := 0, sending := false,
        sendBuffMain := [1, 2], sendBuffFlush := [], sendFlushOffset := 0,
        sendLimit := 0 } none 1).1
    ∧ Session.sendInv (Session.clearBuffs
      { connected := true, bytesPending := 2, bytesSending := 0,
        bytesSent := 0, bytesReceived := 0, receiving := false,
        receiveBuff := 0, receiveLimit := 0, sending := false,
        sendBuffMain := [1, 2], sendBuffFlush := [], sendFlushOffset := 0,
        sendLimit := 0 }) :=
  claim_C8_pending_equals_main
    { connected := true, bytesPending := 2, bytesSending := 0,
      bytesSent := 0, bytesReceived := 0, receiving := false,
      receiveBuff := 0, receiveLimit := 0, sending := false,
      sendBuffMain := [1, 2], sendBuffFlush := [], sendFlushOffset := 0,
      sendLimit := 0 } [9] none 1 rfl

/-- C9: a slab of capacity S serves an allocation from the inline fast
buffer exactly when it is free and the request is smaller than S, marking
it used; otherwise the request goes to the heap with the slab untouched;
freeing the inline pointer marks the slab free again, so an inline alloc
followed by its free restores the free state, and freeing any other
pointer releases it to the general heap. -/
theorem claim_C9_handler_slab
    (S : Nat) (st : HandlerMemoryState) (n fresh k : Nat) :
    ((HandlerMemory.alloc S st n fresh).2 = Ptr.fast
      ↔ st.used = false ∧ n < S)
    ∧ (st.used = false → n < S →
        HandlerMemory.alloc S st n fresh = ({ used := true }, Ptr.fast))
    ∧ (¬(st.used = false ∧ n < S) →
        HandlerMemory.alloc S st n fresh = (st, Ptr.heap fresh))
    ∧ HandlerMemory.free st Ptr.fast = ({ used := false }, false)
    ∧ (st.used = false → n < S →
        (HandlerMemory.free (HandlerMemory.alloc S st n fresh).1
          (HandlerMemory.alloc S st n fresh).2).1 = st)
    ∧ HandlerMemory.free st (Ptr.heap k) = (st, true) := by
  obtain ⟨u⟩ := st
  refine ⟨?_, ?_, ?_, ?_, ?_, ?_⟩ <;>
    simp_all [HandlerMemory.alloc, HandlerMemory.free] <;>
    split_ifs <;> simp_all

/-- C9 witness: on a free 1024-byte slab, a 3-byte request is served inline
and marks the slab used; freeing the returned pointer restores the free
slab; a heap pointer is released to the heap. -/
theorem claim_C9_witness :
    HandlerMemory.alloc 1024 { used := false } 3 0
      = ({ used := true }, Ptr.fast)
    ∧ (HandlerMemory.free
        (HandlerMemory.alloc 1024 { used := false } 3 0).1
        (HandlerMemory.alloc 1024 { used := false } 3 0).2).1
      = { used := false }
    ∧ HandlerMemory.free { used := false } (Ptr.heap 5)
      = ({ used := false }, true) := by
  refine ⟨?_, ?_, ?_⟩
  · exact (claim_C9_handler_slab 1024 { used := false } 3 0 5).2.1 rfl
      (by decide)
  · exact (claim_C9_handler_slab 1024 { used := false } 3 0 5).2.2.2.2.1 rfl
      (by decide)
  · exact (claim_C9_handler_slab 1024 { used := false } 3 0 5).2.2.2.2.2

/-- C10: send_async with an empty buffer on a connected session returns
true and changes nothing (no append, no counter change, no dispatch, no
error), while on a ready client it returns false, equally changing nothing
and reporting nothing. -/
theorem claim_C10_zero_size_send
    (s : SessionState) (c : ClientState)
    (hs : s.connected = true) (hc : Client.isReady c = true) :
    Session.sendAsync s [] = (s, true, [])
    ∧ Client.sendAsync c [] = (c, false, []) := by
  unfold Session.sendAsync Client.sendAsync
  simp [hs, hc]

/-- C10 witness: the zero-size behavior at a concrete connected session
and ready client. -/
theorem claim_C10_witness :
    Session.sendAsync
      { connected := true, bytesPending := 0, bytesSending := 0,
        bytesSent := 0, bytesReceived := 0, receiving := false,
        receiveBuff := 0, receiveLimit := 0, sending := false,
        sendBuffMain := [], sendBuffFlush := [], sendFlushOffset := 0,
        sendLimit := 0 } []
      = ({ connected := true, bytesPending := 0, bytesSending := 0,
           bytesSent := 0, bytesReceived := 0, receiving := false,
           receiveBuff := 0, receiveLimit := 0, sending := false,
           sendBuffMain := [], sendBuffFlush := [], sendFlushOffset := 0,
           sendLimit := 0 }, true, [])
    ∧ Client.sendAsync
      { connecting := false, connected := true, bytesPending := 0,
        bytesSending := 0, bytesSent := 0, bytesReceived := 0,
        receiving := false, receiveBuff := 0, receiveBuffLimit := 0,
        sending := false, sendBuffMain := [], sendBuffFlush := [],
        sendFlushOffset := 0, sendBuffLimit := 0 } []
      = ({ connecting := false, connected := true, bytesPending := 0,
           bytesSending := 0, bytesSent := 0, bytesReceived := 0,
           receiving := false, receiveBuff := 0, receiveBuffLimit := 0,
           sending := false, sendBuffMain := [], sendBuffFlush := [],
           sendFlushOffset := 0, sendBuffLimit := 0 }, false, []) :=
  claim_C10_zero_size_send _ _ rfl rfl
